import Mathlib

/-!
Verification of the indicator engine, date-range preset resolver,
return/volatility summary and symbol resolver of the stock-lookup
dashboard (`src/app.py`), shallowly embedded in Lean 4.

Conventions of the embedding:
* A price series is the list of its Close values, `List ℚ` (closes are
  positive reals in the data model; exact rational arithmetic stands in
  for IEEE doubles, whose special values `NaN`/`inf` are modelled
  explicitly where they can arise).
* A pandas column is a `List (Option ℚ)`; `none` is `NaN`.
* Python `datetime.date` is a `Date` record over the proleptic Gregorian
  calendar (the calendar Python uses); `d - datetime.timedelta(days=n)`
  is `n` applications of the calendar predecessor function.
-/

namespace StockApp

/-- A calendar date, as in Python `datetime.date` (proleptic Gregorian;
the year is an integer so stepping across year 0 needs no special case). -/
structure Date where
  year : ℤ
  month : ℕ
  day : ℕ
deriving DecidableEq

/-- Gregorian leap-year rule. -/
def isLeap (y : ℤ) : Bool :=
  decide (y % 4 = 0 ∧ (y % 100 ≠ 0 ∨ y % 400 = 0))

/-- Number of days of month `m` of year `y`. -/
def daysInMonth (y : ℤ) (m : ℕ) : ℕ :=
  if m = 2 then (if isLeap y then 29 else 28)
  else if m = 4 ∨ m = 6 ∨ m = 9 ∨ m = 11 then 30
  else 31

/-- A year/month/day triple that denotes a real calendar day. -/
def isValidDate (d : Date) : Prop :=
  1 ≤ d.month ∧ d.month ≤ 12 ∧ 1 ≤ d.day ∧ d.day ≤ daysInMonth d.year d.month

instance (d : Date) : Decidable (isValidDate d) := by
  unfold isValidDate; infer_instance

/-- The calendar day before `d`. -/
def prevDay (d : Date) : Date :=
  if 1 < d.day then { d with day := d.day - 1 }
  else if 1 < d.month then
    { d with month := d.month - 1, day := daysInMonth d.year (d.month - 1) }
  else { year := d.year - 1, month := 12, day := 31 }

/-- The calendar day after `d`. -/
def nextDay (d : Date) : Date :=
  if d.day < daysInMonth d.year d.month then { d with day := d.day + 1 }
  else if d.month < 12 then { d with month := d.month + 1, day := 1 }
  else { year := d.year + 1, month := 1, day := 1 }

/-- `d - datetime.timedelta(days = n)`: calendar-day subtraction. -/
def subDays (d : Date) : ℕ → Date
  | 0 => d
  | n + 1 => prevDay (subDays d n)

/-- `d + datetime.timedelta(days = n)`: calendar-day addition. -/
def addDays (d : Date) : ℕ → Date
  | 0 => d
  | n + 1 => addDays (nextDay d) n

/-- `calc_start_date` from `src/app.py` lines 99-116: start date for a
quick-range preset, given the end date.  Unrecognized presets (including
"MAX" and the manual-selection label) fall through to January 1 of the
end date's year. -/
def calc_start_date (preset : String) (end_date : Date) : Date :=
  if preset = "1M" then subDays end_date 31
  else if preset = "3M" then subDays end_date 92
  else if preset = "6M" then subDays end_date 183
  else if preset = "YTD" then { year := end_date.year, month := 1, day := 1 }
  else if preset = "1Y" then subDays end_date 365
  else if preset = "3Y" then subDays end_date (365 * 3)
  else { year := end_date.year, month := 1, day := 1 }

/-- The main-flow range resolution of `src/app.py` lines 285-290: when the
preset is "MAX" the fetch window starts at the fixed floor 2000-01-01 and
ends at the selected end date; otherwise the selected dates are used. -/
def resolveQueryRange (preset : String) (selected : Date × Date) : Date × Date :=
  if preset = "MAX" then ({ year := 2000, month := 1, day := 1 }, selected.2)
  else selected

lemma one_le_daysInMonth (y : ℤ) (m : ℕ) : 1 ≤ daysInMonth y m := by
  unfold daysInMonth
  split_ifs <;> omega

lemma daysInMonth_twelve (y : ℤ) : daysInMonth y 12 = 31 := by
  unfold daysInMonth
  norm_num

lemma mk_year (y : ℤ) (m dd : ℕ) : (Date.mk y m dd).year = y := rfl

lemma mk_month (y : ℤ) (m dd : ℕ) : (Date.mk y m dd).month = m := rfl

lemma mk_day (y : ℤ) (m dd : ℕ) : (Date.mk y m dd).day = dd := rfl

lemma isValidDate_prevDay {d : Date} (h : isValidDate d) : isValidDate (prevDay d) := by
  obtain ⟨y, m, dd⟩ := d
  obtain ⟨h1, h2, h3, h4⟩ := h
  simp only [isValidDate, prevDay, mk_year, mk_month, mk_day] at *
  have hone1 := one_le_daysInMonth y (m - 1)
  split_ifs with hd hm <;>
    simp only [mk_year, mk_month, mk_day, daysInMonth_twelve, eq_self_iff_true,
      and_true, true_and] at * <;>
    omega

lemma nextDay_prevDay {d : Date} (h : isValidDate d) : nextDay (prevDay d) = d := by
  obtain ⟨y, m, dd⟩ := d
  obtain ⟨h1, h2, h3, h4⟩ := h
  simp only [isValidDate, mk_year, mk_month, mk_day] at h1 h2 h3 h4
  simp only [prevDay, nextDay, mk_year, mk_month, mk_day]
  have hone1 := one_le_daysInMonth y (m - 1)
  split_ifs with hd hx hm hx hy hx hy <;>
    simp only [mk_year, mk_month, mk_day, daysInMonth_twelve, Date.mk.injEq,
      eq_self_iff_true, and_true, true_and] at * <;>
    omega

lemma isValidDate_subDays {d : Date} (h : isValidDate d) (n : ℕ) :
    isValidDate (subDays d n) := by
  induction n with
  | zero => exact h
  | succ n ih => exact isValidDate_prevDay ih

lemma addDays_subDays {d : Date} (h : isValidDate d) (n : ℕ) :
    addDays (subDays d n) n = d := by
  induction n with
  | zero => rfl
  | succ n ih =>
    show addDays (prevDay (subDays d n)) (n + 1) = d
    have hv := isValidDate_subDays h n
    calc addDays (prevDay (subDays d n)) (n + 1)
        = addDays (nextDay (prevDay (subDays d n))) n := rfl
      _ = addDays (subDays d n) n := by rw [nextDay_prevDay hv]
      _ = d := ih

lemma subDays_add (d : Date) (a b : ℕ) :
    subDays d (a + b) = subDays (subDays d a) b := by
  induction b with
  | zero => rfl
  | succ b ih =>
    show prevDay (subDays d (a + b)) = prevDay (subDays (subDays d a) b)
    rw [ih]

set_option maxRecDepth 8000 in
lemma subDays_365_concrete :
    subDays { year := 2024, month := 7, day := 15 } 365 =
      { year := 2023, month := 7, day := 16 } := by
  have h1 : subDays { year := 2024, month := 7, day := 15 } 100 =
      { year := 2024, month := 4, day := 6 } := by decide
  have h2 : subDays { year := 2024, month := 4, day := 6 } 100 =
      { year := 2023, month := 12, day := 28 } := by decide
  have h3 : subDays { year := 2023, month := 12, day := 28 } 100 =
      { year := 2023, month := 9, day := 19 } := by decide
  have h4 : subDays { year := 2023, month := 9, day := 19 } 65 =
      { year := 2023, month := 7, day := 16 } := by decide
  have h365 : (365 : ℕ) = 100 + 100 + 100 + 65 := by norm_num
  rw [h365, subDays_add, subDays_add, subDays_add, h1, h2, h3, h4]

lemma calc_start_date_1M (d : Date) : calc_start_date "1M" d = subDays d 31 := by
  simp [calc_start_date]

lemma calc_start_date_3M (d : Date) : calc_start_date "3M" d = subDays d 92 := by
  simp [calc_start_date]

lemma calc_start_date_6M (d : Date) : calc_start_date "6M" d = subDays d 183 := by
  simp [calc_start_date]

lemma calc_start_date_YTD (d : Date) :
    calc_start_date "YTD" d = { year := d.year, month := 1, day := 1 } := by
  simp [calc_start_date]

lemma calc_start_date_1Y (d : Date) : calc_start_date "1Y" d = subDays d 365 := by
  simp [calc_start_date]

lemma calc_start_date_3Y (d : Date) :
    calc_start_date "3Y" d = subDays d (365 * 3) := by
  simp [calc_start_date]

/-- Claim C4: for every as-of date (the selected end date of the query),
resolving the "MAX" preset yields the fixed epoch floor start date
2000-01-01 and end date equal to the as-of date, whatever start was
selected. -/
theorem claim_C4_max_preset (s e : Date) :
    resolveQueryRange "MAX" (s, e) = ({ year := 2000, month := 1, day := 1 }, e) := by
  simp [resolveQueryRange]

set_option maxRecDepth 40000 in
/-- Claim C5: the preset resolver returns start dates exactly 31, 92, 183,
365 and 1095 calendar days before the as-of date for "1M", "3M", "6M",
"1Y" and "3Y" (witnessed by the round trip: adding the same number of
days to the start returns the as-of date), January 1 of the as-of year
for "YTD"; concretely, for as-of 2024-07-15, "YTD" gives 2024-01-01 and
"1Y" gives 2023-07-16. -/
theorem claim_C5_presets (d : Date) (hv : isValidDate d) :
    (calc_start_date "1M" d = subDays d 31 ∧
      addDays (calc_start_date "1M" d) 31 = d) ∧
    (calc_start_date "3M" d = subDays d 92 ∧
      addDays (calc_start_date "3M" d) 92 = d) ∧
    (calc_start_date "6M" d = subDays d 183 ∧
      addDays (calc_start_date "6M" d) 183 = d) ∧
    calc_start_date "YTD" d = { year := d.year, month := 1, day := 1 } ∧
    (calc_start_date "1Y" d = subDays d 365 ∧
      addDays (calc_start_date "1Y" d) 365 = d) ∧
    (calc_start_date "3Y" d = subDays d (365 * 3) ∧ (365 * 3 : ℕ) = 1095 ∧
      addDays (calc_start_date "3Y" d) (365 * 3) = d) ∧
    calc_start_date "YTD" { year := 2024, month := 7, day := 15 } =
      { year := 2024, month := 1, day := 1 } ∧
    calc_start_date "1Y" { year := 2024, month := 7, day := 15 } =
      { year := 2023, month := 7, day := 16 } := by
  refine ⟨⟨?_, ?_⟩, ⟨?_, ?_⟩, ⟨?_, ?_⟩, ?_, ⟨?_, ?_⟩, ⟨?_, ?_, ?_⟩, ?_, ?_⟩
  · exact calc_start_date_1M d
  · rw [calc_start_date_1M]
    exact addDays_subDays hv 31
  · exact calc_start_date_3M d
  · rw [calc_start_date_3M]
    exact addDays_subDays hv 92
  · exact calc_start_date_6M d
  · rw [calc_start_date_6M]
    exact addDays_subDays hv 183
  · exact calc_start_date_YTD d
  · exact calc_start_date_1Y d
  · rw [calc_start_date_1Y]
    exact addDays_subDays hv 365
  · exact calc_start_date_3Y d
  · norm_num
  · rw [calc_start_date_3Y]
    exact addDays_subDays hv (365 * 3)
  · rw [calc_start_date_YTD]
  · rw [calc_start_date_1Y]
    exact subDays_365_concrete

/-- Witness for C5 at the concrete as-of date 2024-07-15. -/
theorem claim_C5_presets_witness :
    calc_start_date "1Y" { year := 2024, month := 7, day := 15 } =
      subDays { year := 2024, month := 7, day := 15 } 365 ∧
    addDays (calc_start_date "1Y" { year := 2024, month := 7, day := 15 }) 365 =
      { year := 2024, month := 7, day := 15 } := by
  obtain ⟨-, -, -, -, h5, -⟩ :=
    claim_C5_presets { year := 2024, month := 7, day := 15 } (by decide)
  exact h5

/-- Claim C10: for every preset string outside the six recognized ones
(including "MAX" and the manual-selection label), `calc_start_date`
falls through to January 1 of the end date's year, i.e. behaves exactly
like "YTD" and not like the 2000-01-01 epoch floor. -/
theorem claim_C10_fallthrough (preset : String) (d : Date)
    (h : preset ∉ (["1M", "3M", "6M", "YTD", "1Y", "3Y"] : List String)) :
    calc_start_date preset d = { year := d.year, month := 1, day := 1 } ∧
    calc_start_date preset d = calc_start_date "YTD" d := by
  simp only [List.mem_cons, List.not_mem_nil, or_false, not_or] at h
  obtain ⟨n1, n2, n3, n4, n5, n6⟩ := h
  have hytd : calc_start_date "YTD" d = { year := d.year, month := 1, day := 1 } := rfl
  constructor
  · unfold calc_start_date
    rw [if_neg n1, if_neg n2, if_neg n3, if_neg n4, if_neg n5, if_neg n6]
  · unfold calc_start_date
    rw [if_neg n1, if_neg n2, if_neg n3, if_neg n4, if_neg n5, if_neg n6]
    exact hytd.symm

/-- Witness for C10 at preset "MAX". -/
theorem claim_C10_fallthrough_witness :
    calc_start_date "MAX" { year := 2024, month := 7, day := 15 } =
      { year := 2024, month := 1, day := 1 } ∧
    calc_start_date "MAX" { year := 2024, month := 7, day := 15 } =
      calc_start_date "YTD" { year := 2024, month := 7, day := 15 } :=
  claim_C10_fallthrough "MAX" { year := 2024, month := 7, day := 15 } (by decide)

/-- `Series.rolling(n).mean()` of pandas at position `i`: the window is
the last `min (i+1) n` entries; with the default `min_periods = n` the
result is `NaN` unless the window holds `n` non-`NaN` values, and is
otherwise their arithmetic mean. -/
def rollingMean (n : ℕ) (xs : List (Option ℚ)) (i : ℕ) : Option ℚ :=
  let vals := ((xs.take (i + 1)).drop (i + 1 - n)).filterMap id
  if n ≤ vals.length then some (vals.sum / (vals.length : ℚ)) else none

/-- The `MA{n}` column entry at bar `i`: `df["Close"].rolling(n).mean()`
(`src/app.py` lines 84-87). -/
def MAat (n : ℕ) (closes : List ℚ) (i : ℕ) : Option ℚ :=
  rollingMean n (closes.map some) i

/-- `df["Close"].diff()`: per-bar price delta `Close[i] - Close[i-1]`,
`NaN` at position 0. -/
def diffs (closes : List ℚ) : List (Option ℚ) :=
  match closes with
  | [] => []
  | _ :: rest => none :: List.zipWith (fun prev cur => some (cur - prev)) closes rest

/-- `delta.clip(lower=0)`: the gain series (`src/app.py` line 91). -/
def gains (closes : List ℚ) : List (Option ℚ) :=
  (diffs closes).map (Option.map fun d => max d 0)

/-- `-(delta.clip(upper=0))`: the loss series (`src/app.py` line 92). -/
def losses (closes : List ℚ) : List (Option ℚ) :=
  (diffs closes).map (Option.map fun d => -(min d 0))

/-- `gain.rolling(14).mean()` at bar `i`. -/
def avgGain (closes : List ℚ) (i : ℕ) : Option ℚ :=
  rollingMean 14 (gains closes) i

/-- `loss.rolling(14).mean()` at bar `i`. -/
def avgLoss (closes : List ℚ) (i : ℕ) : Option ℚ :=
  rollingMean 14 (losses closes) i

/-- An IEEE double as it can appear in the RSI pipeline: an exact finite
value, `+inf`, or `NaN`. -/
inductive FloatVal where
  | nan : FloatVal
  | inf : FloatVal
  | val : ℚ → FloatVal
deriving DecidableEq

/-- IEEE division `gain / loss` of two possibly-`NaN` doubles: `NaN`
operands propagate, `x / 0 = +inf` for `x > 0`, and `0 / 0 = NaN`.  Both
operands are rolling means of non-negative series, so the
negative-infinity cases cannot arise. -/
def rsDiv (og ol : Option ℚ) : FloatVal :=
  match og, ol with
  | some g, some l =>
      if l = 0 then (if g = 0 then FloatVal.nan else FloatVal.inf)
      else FloatVal.val (g / l)
  | _, _ => FloatVal.nan

/-- `rs = gain / loss` at bar `i` (`src/app.py` line 93). -/
def rsAt (closes : List ℚ) (i : ℕ) : FloatVal :=
  rsDiv (avgGain closes i) (avgLoss closes i)

/-- `100 - (100 / (1 + rs))` on an IEEE double: `NaN` propagates, and for
`rs = +inf` the result is `100 - 100/inf = 100 - 0 = 100`. -/
def rsiOfRs : FloatVal → Option ℚ
  | FloatVal.nan => none
  | FloatVal.inf => some 100
  | FloatVal.val q => some (100 - 100 / (1 + q))

/-- The `RSI14` column entry at bar `i` (`src/app.py` line 94). -/
def rsi14At (closes : List ℚ) (i : ℕ) : Option ℚ :=
  rsiOfRs (rsAt closes i)

/-- The data frame produced by `add_indicators` (`src/app.py` lines
80-96), restricted to the columns the claims are about: the Close column
plus the derived indicator columns. -/
structure IndicatorFrame where
  close : List ℚ
  ma5 : List (Option ℚ)
  ma20 : List (Option ℚ)
  ma60 : List (Option ℚ)
  ma120 : List (Option ℚ)
  rsi14 : List (Option ℚ)
deriving DecidableEq

/-- `add_indicators` from `src/app.py` lines 80-96: attaches the four
moving-average columns and the RSI14 column to the price frame.  It is a
total function: every pandas operation it performs is defined on an empty
frame as well, producing empty columns. -/
def add_indicators (closes : List ℚ) : IndicatorFrame :=
  { close := closes
    ma5 := (List.range closes.length).map (MAat 5 closes)
    ma20 := (List.range closes.length).map (MAat 20 closes)
    ma60 := (List.range closes.length).map (MAat 60 closes)
    ma120 := (List.range closes.length).map (MAat 120 closes)
    rsi14 := (List.range closes.length).map (rsi14At closes) }

/-- The main-flow guard of `src/app.py` lines 300-304: an empty fetched
frame stops the page (`st.stop()`, modelled as `none`) before
`add_indicators` is ever invoked; a non-empty frame is augmented. -/
def processFetched (closes : List ℚ) : Option IndicatorFrame :=
  if closes.isEmpty then none else some (add_indicators closes)

/-- 15 bars with Close strictly increasing by 1 each day starting at 100
(scenario of claim C2). -/
def demoRising : List ℚ :=
  [100, 101, 102, 103, 104, 105, 106, 107, 108, 109, 110, 111, 112, 113, 114]

/-- 15 bars of a flat market (scenario of claim C3). -/
def demoFlat : List ℚ := List.replicate 15 100

lemma diffs_demoRising : diffs demoRising = none :: List.replicate 14 (some 1) := by
  norm_num [diffs, demoRising, List.replicate]

lemma avgGain_demoRising : avgGain demoRising 14 = some 1 := by
  have hg : gains demoRising = none :: List.replicate 14 (some 1) := by
    rw [gains, diffs_demoRising]
    norm_num [List.replicate, max_def]
  rw [avgGain, hg]
  norm_num [rollingMean, List.replicate, List.filterMap_cons, id_eq]

lemma avgLoss_demoRising : avgLoss demoRising 14 = some 0 := by
  have hl : losses demoRising = none :: List.replicate 14 (some 0) := by
    rw [losses, diffs_demoRising]
    norm_num [List.replicate, min_def]
  rw [avgLoss, hl]
  norm_num [rollingMean, List.replicate, List.filterMap_cons, id_eq]

lemma diffs_demoFlat : diffs demoFlat = none :: List.replicate 14 (some 0) := by
  norm_num [diffs, demoFlat, List.replicate]

lemma avgGain_demoFlat : avgGain demoFlat 14 = some 0 := by
  have hg : gains demoFlat = none :: List.replicate 14 (some 0) := by
    rw [gains, diffs_demoFlat]
    norm_num [List.replicate, max_def]
  rw [avgGain, hg]
  norm_num [rollingMean, List.replicate, List.filterMap_cons, id_eq]

lemma avgLoss_demoFlat : avgLoss demoFlat 14 = some 0 := by
  have hl : losses demoFlat = none :: List.replicate 14 (some 0) := by
    rw [losses, diffs_demoFlat]
    norm_num [List.replicate, min_def]
  rw [avgLoss, hl]
  norm_num [rollingMean, List.replicate, List.filterMap_cons, id_eq]

lemma rsi14At_demoRising : rsi14At demoRising 14 = some 100 := by
  simp only [rsi14At, rsAt, avgGain_demoRising, avgLoss_demoRising]
  norm_num [rsDiv, rsiOfRs]

lemma rsi14At_demoFlat : rsi14At demoFlat 14 = none := by
  simp only [rsi14At, rsAt, avgGain_demoFlat, avgLoss_demoFlat]
  norm_num [rsDiv, rsiOfRs]

lemma sum_take_getD (l : List ℚ) : ∀ b : ℕ, b ≤ l.length →
    (l.take b).sum = ∑ k ∈ Finset.range b, l.getD k 0 := by
  induction l with
  | nil =>
    intro b hb
    have hb0 : b = 0 := by simpa using hb
    subst hb0
    simp
  | cons x xs ih =>
    intro b hb
    cases b with
    | zero => simp
    | succ b =>
      rw [List.take_succ_cons, List.sum_cons, Finset.sum_range_succ']
      simp only [List.getD_cons_succ, List.getD_cons_zero]
      rw [ih b (by simpa using hb)]
      ring

lemma getD_drop_eq (l : List ℚ) (a k : ℕ) :
    (l.drop a).getD k 0 = l.getD (a + k) 0 := by
  rw [List.getD_eq_getElem?_getD, List.getD_eq_getElem?_getD, List.getElem?_drop]

lemma rollingMean_map_some (n : ℕ) (closes : List ℚ) (i : ℕ) (hn : 0 < n)
    (hi : i < closes.length) :
    ((rollingMean n (closes.map some) i).isSome = true ↔ n - 1 ≤ i) ∧
    (n - 1 ≤ i → rollingMean n (closes.map some) i =
      some ((∑ k ∈ Finset.Icc (i + 1 - n) i, closes.getD k 0) / (n : ℚ))) := by
  have hw : (((closes.map some).take (i + 1)).drop (i + 1 - n)).filterMap id
      = (closes.take (i + 1)).drop (i + 1 - n) := by
    rw [← List.map_take, ← List.map_drop, List.filterMap_map, Function.id_comp,
      List.filterMap_some]
  have hwl : ((closes.take (i + 1)).drop (i + 1 - n)).length = i + 1 - (i + 1 - n) := by
    rw [List.length_drop, List.length_take]
    omega
  have hsum : n - 1 ≤ i → ((closes.take (i + 1)).drop (i + 1 - n)).sum =
      ∑ k ∈ Finset.Icc (i + 1 - n) i, closes.getD k 0 := by
    intro h
    rw [List.drop_take]
    have h1 : (i + 1) - (i + 1 - n) = n := by omega
    rw [h1, sum_take_getD (closes.drop (i + 1 - n)) n (by rw [List.length_drop]; omega)]
    rw [← Nat.Ico_succ_right, Finset.sum_Ico_eq_sum_range]
    have h2 : i + 1 - (i + 1 - n) = n := by omega
    rw [h2]
    exact Finset.sum_congr rfl fun k _ => getD_drop_eq closes (i + 1 - n) k
  constructor
  · constructor
    · intro hs
      by_contra hlt
      have hcond : ¬ n ≤ ((((closes.map some).take (i + 1)).drop (i + 1 - n)).filterMap id).length := by
        rw [hw, hwl]
        omega
      unfold rollingMean at hs
      rw [if_neg hcond] at hs
      exact Bool.false_ne_true hs
    · intro h
      have hcond : n ≤ ((((closes.map some).take (i + 1)).drop (i + 1 - n)).filterMap id).length := by
        rw [hw, hwl]
        omega
      unfold rollingMean
      rw [if_pos hcond]
      rfl
  · intro h
    have hcond : n ≤ ((((closes.map some).take (i + 1)).drop (i + 1 - n)).filterMap id).length := by
      rw [hw, hwl]
      omega
    unfold rollingMean
    rw [if_pos hcond, hw]
    have hlen : ((closes.take (i + 1)).drop (i + 1 - n)).length = n := by
      rw [hwl]
      omega
    rw [hsum h, hlen]

lemma MAat_spec (n : ℕ) (closes : List ℚ) (i : ℕ) (hn : 0 < n)
    (hi : i < closes.length) :
    ((MAat n closes i).isSome = true ↔ n - 1 ≤ i) ∧
    (n - 1 ≤ i → MAat n closes i =
      some ((∑ k ∈ Finset.Icc (i + 1 - n) i, closes.getD k 0) / (n : ℚ))) :=
  rollingMean_map_some n closes i hn hi

/-- Claim C1: for each N in {5, 20, 60, 120} and every non-empty price
series, the moving-average entry MA_N at bar i is defined exactly when
i ≥ N − 1, and where defined it is the arithmetic mean of the Close
values over bars [i − N + 1, i] inclusive. -/
theorem claim_C1_moving_averages (closes : List ℚ) (N i : ℕ) (_hne : closes ≠ [])
    (hN : N ∈ ([5, 20, 60, 120] : List ℕ)) (hi : i < closes.length) :
    ((MAat N closes i).isSome = true ↔ N - 1 ≤ i) ∧
    (N - 1 ≤ i → MAat N closes i =
      some ((∑ k ∈ Finset.Icc (i + 1 - N) i, closes.getD k 0) / (N : ℚ))) := by
  have hn : 0 < N := by
    simp only [List.mem_cons, List.not_mem_nil, or_false] at hN
    rcases hN with h | h | h | h <;> omega
  exact MAat_spec N closes i hn hi

/-- Witness for C1: the 5-bar series [1,2,3,4,5] at bar 4 has MA5 defined
and equal to (1+2+3+4+5)/5 = 3. -/
theorem claim_C1_moving_averages_witness :
    (MAat 5 ([1, 2, 3, 4, 5] : List ℚ) 4).isSome = true ∧
    MAat 5 ([1, 2, 3, 4, 5] : List ℚ) 4 =
      some ((∑ k ∈ Finset.Icc (4 + 1 - 5) 4, ([1, 2, 3, 4, 5] : List ℚ).getD k 0) /
        (5 : ℚ)) := by
  obtain ⟨hiff, hval⟩ := claim_C1_moving_averages ([1, 2, 3, 4, 5] : List ℚ) 5 4
    (by simp) (by norm_num) (by norm_num)
  exact ⟨hiff.mpr (by norm_num), hval (by norm_num)⟩

lemma rollingMean_nonneg (n : ℕ) (xs : List (Option ℚ)) (i : ℕ) (m : ℚ)
    (hx : ∀ q : ℚ, some q ∈ xs → 0 ≤ q) (hm : rollingMean n xs i = some m) :
    0 ≤ m := by
  unfold rollingMean at hm
  by_cases hc : n ≤ (((xs.take (i + 1)).drop (i + 1 - n)).filterMap id).length
  · rw [if_pos hc, Option.some.injEq] at hm
    rw [← hm]
    apply div_nonneg
    · apply List.sum_nonneg
      intro q hq
      rw [List.mem_filterMap] at hq
      obtain ⟨a, ha, haq⟩ := hq
      rw [id_eq] at haq
      subst haq
      exact hx q (List.take_subset _ _ (List.drop_subset _ _ ha))
    · exact Nat.cast_nonneg _
  · rw [if_neg hc] at hm
    exact absurd hm (by simp)

lemma gains_nonneg (closes : List ℚ) :
    ∀ q : ℚ, some q ∈ gains closes → 0 ≤ q := by
  intro q hq
  unfold gains at hq
  rw [List.mem_map] at hq
  obtain ⟨a, -, ha⟩ := hq
  cases a with
  | none => simp at ha
  | some d =>
    simp only [Option.map_some', Option.some.injEq] at ha
    rw [← ha]
    exact le_max_right d 0

lemma losses_nonneg (closes : List ℚ) :
    ∀ q : ℚ, some q ∈ losses closes → 0 ≤ q := by
  intro q hq
  unfold losses at hq
  rw [List.mem_map] at hq
  obtain ⟨a, -, ha⟩ := hq
  cases a with
  | none => simp at ha
  | some d =>
    simp only [Option.map_some', Option.some.injEq] at ha
    rw [← ha, neg_nonneg]
    exact min_le_right d 0

/-- Claim C2: wherever RSI14 is defined its value lies in [0, 100]; it is
exactly 100 whenever the trailing-14 average loss is 0 and the average
gain is positive; and on the 15-bar series rising by 1 from 100 it equals
100 at bar 14 (the only bar at which it is defined). -/
theorem claim_C2_rsi_range (closes : List ℚ) (i : ℕ) (q g : ℚ) :
    (rsi14At closes i = some q → 0 ≤ q ∧ q ≤ 100) ∧
    (avgLoss closes i = some 0 → avgGain closes i = some g → 0 < g →
      rsi14At closes i = some 100) ∧
    rsi14At demoRising 14 = some 100 := by
  refine ⟨?_, ?_, rsi14At_demoRising⟩
  · intro hq
    unfold rsi14At rsAt at hq
    cases hg : avgGain closes i with
    | none =>
      rw [hg] at hq
      simp [rsDiv, rsiOfRs] at hq
    | some gv =>
      cases hl : avgLoss closes i with
      | none =>
        rw [hg, hl] at hq
        simp [rsDiv, rsiOfRs] at hq
      | some lv =>
        rw [hg, hl] at hq
        have hgv : 0 ≤ gv :=
          rollingMean_nonneg 14 (gains closes) i gv (gains_nonneg closes) hg
        have hlv : 0 ≤ lv :=
          rollingMean_nonneg 14 (losses closes) i lv (losses_nonneg closes) hl
        by_cases hl0 : lv = 0
        · by_cases hg0 : gv = 0
          · simp [rsDiv, rsiOfRs, hl0, hg0] at hq
          · simp [rsDiv, rsiOfRs, hl0, hg0] at hq
            subst hq
            norm_num
        · rw [show rsDiv (some gv) (some lv) = FloatVal.val (gv / lv) from by
            simp [rsDiv, hl0]] at hq
          rw [show rsiOfRs (FloatVal.val (gv / lv)) =
              some (100 - 100 / (1 + gv / lv)) from rfl, Option.some.injEq] at hq
          have hlpos : 0 < lv := lt_of_le_of_ne hlv (Ne.symm hl0)
          have hr : 0 ≤ gv / lv := div_nonneg hgv hlv
          have h1r : (0 : ℚ) < 1 + gv / lv := by linarith
          have hdivpos : 0 < 100 / (1 + gv / lv) := by positivity
          have hdivle : 100 / (1 + gv / lv) ≤ 100 := by
            rw [div_le_iff₀ h1r]
            nlinarith [hr]
          subst hq
          constructor <;> linarith
  · intro hl hg hgpos
    unfold rsi14At rsAt
    rw [hg, hl]
    have hgne : g ≠ 0 := ne_of_gt hgpos
    simp [rsDiv, rsiOfRs, hgne]

/-- Witness for C2: on the demo rising series the hypotheses of both
implications hold at bar 14 and RSI14 is exactly 100 there. -/
theorem claim_C2_rsi_range_witness :
    rsi14At demoRising 14 = some 100 ∧ (0 ≤ (100 : ℚ) ∧ (100 : ℚ) ≤ 100) := by
  have h := claim_C2_rsi_range demoRising 14 100 1
  have h100 : rsi14At demoRising 14 = some 100 :=
    h.2.1 avgLoss_demoRising avgGain_demoRising (by norm_num)
  exact ⟨h100, h.1 h100⟩

/-- Counterexample to claim C3: on a 15-bar flat series both trailing-14
averages are 0 at bar 14, yet the engine leaves RSI14 undefined (NaN)
there instead of setting it to the neutral value 50. -/
theorem claim_C3_counterexample :
    avgGain demoFlat 14 = some 0 ∧ avgLoss demoFlat 14 = some 0 ∧
    rsi14At demoFlat 14 = none ∧ rsi14At demoFlat 14 ≠ some 50 := by
  refine ⟨avgGain_demoFlat, avgLoss_demoFlat, rsi14At_demoFlat, ?_⟩
  rw [rsi14At_demoFlat]
  simp

/-- Claim C3 amended: in a flat market (both trailing-14 averages 0) the
engine leaves RSI14 undefined (NaN propagates from the 0/0 division)
rather than setting it to 50. -/
theorem claim_C3_amended (closes : List ℚ) (i : ℕ)
    (hg : avgGain closes i = some 0) (hl : avgLoss closes i = some 0) :
    rsi14At closes i = none := by
  unfold rsi14At rsAt
  rw [hg, hl]
  simp [rsDiv, rsiOfRs]

/-- Witness for the amended C3 on the flat demo series. -/
theorem claim_C3_amended_witness : rsi14At demoFlat 14 = none :=
  claim_C3_amended demoFlat 14 avgGain_demoFlat avgLoss_demoFlat

/-- Counterexample to claim C8: the code defines no `EmptySeriesError`;
`add_indicators`, translated, is a total function and on the empty series
returns the empty augmented frame — a (possibly empty) result, not a
signalled error. -/
theorem claim_C8_counterexample :
    add_indicators [] =
      { close := [], ma5 := [], ma20 := [], ma60 := [], ma120 := [],
        rsi14 := [] } ∧
    processFetched [] = none :=
  ⟨rfl, rfl⟩

/-- Claim C8 amended: the application guards empty fetched frames with an
early stop (`st.stop()`, modelled as `none`) before the indicator
computation runs; `add_indicators` itself is invoked exactly on non-empty
series, and would return an empty frame (not an error) if invoked on an
empty one. -/
theorem claim_C8_amended (closes : List ℚ) (h : closes ≠ []) :
    processFetched closes = some (add_indicators closes) ∧
    processFetched [] = none := by
  constructor
  · unfold processFetched
    rw [if_neg (by simpa using h)]
  · rfl

/-- Witness for the amended C8 on a one-bar series. -/
theorem claim_C8_amended_witness :
    processFetched [(100 : ℚ)] = some (add_indicators [100]) ∧
    processFetched [] = none :=
  claim_C8_amended [100] (by simp)

/-- The period-performance total return of `src/app.py` line 376:
`(price_df.iloc[-1]["Close"] / price_df.iloc[0]["Close"] - 1) * 100`.
The empty case is unreachable (the empty-frame guard stops first; `iloc`
would fail) and a zero first close makes the float quotient non-finite;
both are modelled as `none`. -/
def totalRetPct : List ℚ → Option ℚ
  | [] => none
  | c :: rest =>
      if c = 0 then none else some (((c :: rest).getLastD 0 / c - 1) * 100)

/-- Counterexample to claim C6: on a single-bar series the first and last
bar coincide, so the code computes (c/c − 1)·100 = 0 and reports the
number 0.00% — not "not applicable". -/
theorem claim_C6_counterexample :
    totalRetPct [(100 : ℚ)] = some 0 ∧ totalRetPct [(100 : ℚ)] ≠ none := by
  have h : totalRetPct [(100 : ℚ)] = some 0 := by
    simp only [totalRetPct, List.getLastD_cons]
    norm_num
  refine ⟨h, ?_⟩
  rw [h]
  simp

/-- Claim C6 amended: for at least 2 bars and a nonzero first close, the
total return is (lastClose/firstClose − 1)·100 (so Close = [100, 110]
gives exactly 10.00%); for a single-bar series with nonzero close the
code does not fail and reports 0%, not "not applicable". -/
theorem claim_C6_amended (l : List ℚ) (c : ℚ) (h2 : 2 ≤ l.length)
    (h0 : l.headD 0 ≠ 0) (hc : c ≠ 0) :
    totalRetPct l = some ((l.getLastD 0 / l.headD 0 - 1) * 100) ∧
    totalRetPct [c] = some 0 ∧
    totalRetPct [(100 : ℚ), 110] = some 10 := by
  refine ⟨?_, ?_, ?_⟩
  · cases l with
    | nil => simp at h2
    | cons x xs =>
      simp only [List.headD_cons] at h0 ⊢
      simp only [totalRetPct]
      rw [if_neg h0]
  · simp only [totalRetPct, List.getLastD_cons]
    rw [if_neg hc]
    simp only [List.getLastD]
    rw [div_self hc]
    norm_num
  · simp only [totalRetPct, List.getLastD_cons]
    norm_num

/-- Witness for the amended C6: Close = [100, 110] returns 10.00% and a
single bar of 5 returns 0%. -/
theorem claim_C6_amended_witness :
    totalRetPct [(100 : ℚ), 110] =
      some ((([(100 : ℚ), 110].getLastD 0) / ([(100 : ℚ), 110].headD 0) - 1) * 100) ∧
    totalRetPct [(5 : ℚ)] = some 0 ∧
    totalRetPct [(100 : ℚ), 110] = some 10 :=
  claim_C6_amended [(100 : ℚ), 110] 5 (by norm_num) (by norm_num) (by norm_num)

/-- `df["Close"].pct_change()`: daily return `Close[i]/Close[i-1] - 1`,
`NaN` at position 0 (`src/app.py` line 353).  Faithful on the data
model's positive closes; a zero previous close (excluded by the data
model) would give a non-finite float, which ℚ division cannot mirror. -/
def pct_change (closes : List ℚ) : List (Option ℚ) :=
  match closes with
  | [] => []
  | _ :: rest => none :: List.zipWith (fun prev cur => some (cur / prev - 1)) closes rest

/-- The non-`NaN` daily returns of the series. -/
def retVals (closes : List ℚ) : List ℚ :=
  (pct_change closes).filterMap id

/-- The sample variance pandas `Series.std()` takes the square root of:
`NaN` values are skipped, the divisor is `count - 1` (`ddof = 1`, the
sample convention), and fewer than 2 observations give `NaN`. -/
def sampleVar (xs : List ℚ) : Option ℚ :=
  if xs.length < 2 then none
  else some ((xs.map fun r => (r - xs.sum / (xs.length : ℚ)) ^ 2).sum /
    ((xs.length : ℚ) - 1))

/-- `std * np.sqrt(252) * 100` when `std` is a number, else `0.0`:
the `if ret.std() == ret.std() else 0.0` NaN check of `src/app.py`
line 378, with `std = sqrt(sampleVar)`. -/
noncomputable def volOfVar : Option ℚ → ℝ
  | none => 0
  | some v => Real.sqrt (v : ℝ) * Real.sqrt 252 * 100

/-- The annualized volatility percentage of `src/app.py` line 378. -/
noncomputable def volPct (closes : List ℚ) : ℝ :=
  volOfVar (sampleVar (retVals closes))

lemma retVals_single : retVals [(100 : ℚ)] = [] := by
  simp [retVals, pct_change]

lemma retVals_three : retVals [(100 : ℚ), 110, 100] = [1 / 10, -(1 / 11)] := by
  norm_num [retVals, pct_change, List.filterMap_cons, id_eq]

lemma sampleVar_three :
    sampleVar [(1 / 10 : ℚ), -(1 / 11)] = some (441 / 24200) := by
  simp only [sampleVar]
  norm_num

/-- Claim C7: for every price series (positive closes, per the data
model), the annualized volatility is the sample standard deviation of
the daily returns times sqrt 252 times 100 — equivalently
100·sqrt(252·sampleVariance) — and it is exactly 0 whenever fewer than
2 daily returns exist; concretely, Close = [100, 110, 100] gives
100·sqrt(252·441/24200). -/
theorem claim_C7_volatility (closes : List ℚ) (_hpos : ∀ c ∈ closes, 0 < c) :
    ((retVals closes).length < 2 → volPct closes = 0) ∧
    (2 ≤ (retVals closes).length →
      volPct closes =
        100 * Real.sqrt (252 *
          ((((retVals closes).map
              (fun r => (r - (retVals closes).sum / ((retVals closes).length : ℚ)) ^ 2)).sum /
            (((retVals closes).length : ℚ) - 1) : ℚ) : ℝ))) ∧
    volPct [(100 : ℚ), 110, 100] = 100 * Real.sqrt (252 * (441 / 24200)) := by
  refine ⟨?_, ?_, ?_⟩
  · intro h
    have hv : sampleVar (retVals closes) = none := by
      unfold sampleVar
      rw [if_pos h]
    unfold volPct
    rw [hv]
    simp only [volOfVar]
  · intro h
    have hv : sampleVar (retVals closes) =
        some (((retVals closes).map
            (fun r => (r - (retVals closes).sum / ((retVals closes).length : ℚ)) ^ 2)).sum /
          (((retVals closes).length : ℚ) - 1)) := by
      unfold sampleVar
      rw [if_neg (not_lt.mpr h)]
    unfold volPct
    rw [hv]
    simp only [volOfVar]
    rw [Real.sqrt_mul (by norm_num : (0 : ℝ) ≤ 252)]
    ring
  · unfold volPct
    rw [retVals_three, sampleVar_three]
    simp only [volOfVar]
    rw [Real.sqrt_mul (by norm_num : (0 : ℝ) ≤ 252)]
    have hc : (((441 / 24200 : ℚ)) : ℝ) = (441 / 24200 : ℝ) := by norm_num
    rw [hc]
    ring

/-- Witness for C7: a single bar gives volatility exactly 0, and the
3-bar series [100, 110, 100] gives 100·sqrt(252·441/24200). -/
theorem claim_C7_volatility_witness :
    volPct [(100 : ℚ)] = 0 ∧
    volPct [(100 : ℚ), 110, 100] = 100 * Real.sqrt (252 * (441 / 24200)) := by
  refine ⟨?_, ?_⟩
  · exact (claim_C7_volatility [(100 : ℚ)] (by norm_num)).1
      (by rw [retVals_single]; norm_num)
  · exact (claim_C7_volatility [(100 : ℚ), 110, 100] (by norm_num)).2.2

/-- Python `str.strip()`: drop leading and trailing whitespace. -/
def pyStrip (s : String) : String :=
  String.mk
    (((s.data.dropWhile Char.isWhitespace).reverse.dropWhile Char.isWhitespace).reverse)

/-- `company_name.isdigit() and len(company_name) == 6` of `src/app.py`
line 69 (ASCII digits; Python `isdigit` on the empty string is `False`,
matched here because the length test fails). -/
def isSixDigitCode (s : String) : Bool :=
  s.data.all Char.isDigit && s.data.length == 6

/-- A single ASCII apostrophe, the quote used in the error message. -/
def sQuote : String := String.singleton (Char.ofNat 39)

/-- The fixed tail of the resolver's error message. -/
def notFoundSuffix : String :=
  "을 찾을 수 없습니다. 종목코드 6자리를 직접 입력해보세요."

/-- The `ValueError` message of `src/app.py` line 77: the (stripped)
input name in quotes followed by the fixed suffix. -/
def notFoundMsg (nm : String) : String :=
  sQuote ++ nm ++ sQuote ++ notFoundSuffix

/-- `get_stock_code_by_company` from `src/app.py` lines 67-77, with the
KRX listing table (company name, 6-digit code rows) passed explicitly:
the input is stripped; a stripped 6-digit numeric string is returned as
is; otherwise the first row whose company name equals the stripped input
supplies the code, and with no such row a `ValueError` (modelled as
`Except.error`) carries the message with the offending name. -/
def get_stock_code_by_company (table : List (String × String)) (input : String) :
    Except String String :=
  let nm := pyStrip input
  if isSixDigitCode nm then Except.ok nm
  else
    match table.find? (fun p => p.1 == nm) with
    | some p => Except.ok p.2
    | none => Except.error (notFoundMsg nm)

instance : DecidableEq (Except String String) := fun x y =>
  match x, y with
  | Except.ok a, Except.ok b =>
      if h : a = b then Decidable.isTrue (by rw [h])
      else Decidable.isFalse (by simp [h])
  | Except.error a, Except.error b =>
      if h : a = b then Decidable.isTrue (by rw [h])
      else Decidable.isFalse (by simp [h])
  | Except.ok _, Except.error _ => Decidable.isFalse (by simp)
  | Except.error _, Except.ok _ => Decidable.isFalse (by simp)

/-- Counterexample to claim C9: the input " 005930" is not itself a
6-digit numeric string (it has a leading space), so by the claim it would
have to be looked up and, with no matching company name, rejected with an
error — but the code strips the input first and returns "005930" without
consulting the (here empty) table. -/
theorem claim_C9_counterexample :
    get_stock_code_by_company [] " 005930" = Except.ok "005930" ∧
    isSixDigitCode " 005930" = false ∧
    List.find? (fun p => p.1 == " 005930") ([] : List (String × String)) = none := by
  refine ⟨by decide, by decide, rfl⟩

/-- Claim C9 amended: the resolver first strips the input; any input whose
stripped form is a 6-digit numeric string is returned (stripped) verbatim
without consulting the lookup table (the result does not depend on the
table); otherwise the first table row whose company name equals the
stripped input supplies the returned code, and an error whose message
contains the stripped input is raised exactly when no such row exists. -/
theorem claim_C9_amended (table table2 : List (String × String)) (input : String)
    (p : String × String) :
    (isSixDigitCode (pyStrip input) = true →
      get_stock_code_by_company table input = Except.ok (pyStrip input) ∧
      get_stock_code_by_company table input =
        get_stock_code_by_company table2 input) ∧
    (isSixDigitCode (pyStrip input) = false →
      (table.find? (fun q => q.1 == pyStrip input) = some p →
        get_stock_code_by_company table input = Except.ok p.2) ∧
      (table.find? (fun q => q.1 == pyStrip input) = none →
        get_stock_code_by_company table input =
          Except.error (notFoundMsg (pyStrip input)) ∧
        ∃ pre post, notFoundMsg (pyStrip input) = pre ++ pyStrip input ++ post) ∧
      (∀ msg, get_stock_code_by_company table input = Except.error msg →
        table.find? (fun q => q.1 == pyStrip input) = none)) := by
  constructor
  · intro h6
    constructor
    · simp only [get_stock_code_by_company]
      rw [if_pos h6]
    · simp only [get_stock_code_by_company]
      rw [if_pos h6, if_pos h6]
  · intro h6
    refine ⟨?_, ?_, ?_⟩
    · intro hf
      simp only [get_stock_code_by_company]
      rw [if_neg (by simp [h6]), hf]
    · intro hf
      simp only [get_stock_code_by_company]
      rw [if_neg (by simp [h6]), hf]
      refine ⟨rfl, sQuote, sQuote ++ notFoundSuffix, ?_⟩
      simp only [notFoundMsg, String.append_assoc]
    · intro msg hmsg
      simp only [get_stock_code_by_company] at hmsg
      rw [if_neg (by simp [h6])] at hmsg
      cases hf : table.find? (fun q => q.1 == pyStrip input) with
      | none => rfl
      | some q =>
        rw [hf] at hmsg
        exact absurd hmsg (by simp)

/-- Witness for the amended C9: "005930" bypasses two different tables,
"삼성전자" resolves through the table, and "LG" raises the error with the
offending name. -/
theorem claim_C9_amended_witness :
    get_stock_code_by_company [("삼성전자", "005930")] " 005930 " =
      Except.ok (pyStrip " 005930 ") ∧
    get_stock_code_by_company [("삼성전자", "005930")] "삼성전자" =
      Except.ok "005930" ∧
    get_stock_code_by_company [("삼성전자", "005930")] "LG" =
      Except.error (notFoundMsg (pyStrip "LG")) := by
  refine ⟨?_, ?_, ?_⟩
  · exact ((claim_C9_amended [("삼성전자", "005930")] [] " 005930 " ("", "")).1
      (by decide)).1
  · exact (((claim_C9_amended [("삼성전자", "005930")] [] "삼성전자"
      ("삼성전자", "005930")).2 (by decide)).1 (by decide))
  · exact ((((claim_C9_amended [("삼성전자", "005930")] [] "LG" ("", "")).2
      (by decide)).2.1 (by decide)).1)

end StockApp
